import Mathlib

/-!
Verification of the metric computation engine of a rental analytics service
(`src/server/api/routers/analytics.ts`).

Shallow embedding conventions:

* Dates are modelled as integer day numbers (days since an arbitrary epoch).
  The source operates on JavaScript `Date` values via `date-fns`; on
  midnight-aligned dates, `differenceInDays e s` is exactly `e - s`,
  `isAfter a b` is `a > b` and `isBefore a b` is `a < b`, which is how the
  embedding renders them.  All claims quantify over calendar-date boundaries,
  so the day-granularity model is exact for them.
* Monetary amounts are modelled as rationals (`ℚ`) in place of IEEE doubles:
  every equality proved below is exact, hence in particular holds "within
  floating-point epsilon".
* A nullable numeric field (`totalPrice: any`, `nightlySubtotal: any`,
  both `number | null` at the call sites' day of reckoning) is `Option ℚ`;
  the JavaScript truthiness test `if (x)` on such a value is
  "present and nonzero".
* The `for`-loop accumulating `totalNights += ...` / `totalRevenue += ...`
  is rendered as a sum over the mapped list, which is the same fold.
-/

/-- A reservation row as selected by the analytics queries:
`{ startDate, endDate, totalPrice, nightlySubtotal }`.
`startDate`/`endDate` are day numbers; the stay is the half-open range
`[startDate, endDate)`.  `totalPrice` is the gross price, `nightlySubtotal`
the room-revenue-only amount. -/
structure Reservation where
  startDate : ℤ
  endDate : ℤ
  totalPrice : Option ℚ
  nightlySubtotal : Option ℚ
deriving Repr, DecidableEq

/-- JavaScript truthiness of a nullable number: `null` and `0` are falsy,
every other number is truthy. -/
def truthy : Option ℚ → Bool
  | none => false
  | some v => v != 0

/-- Embedding of the nights computation of the loop body of
`calculateMonthMetrics` (analytics.ts lines 793-800): clamp the reservation
to the month, and if the clamped range is nonempty count its days. -/
def nightsInMonth (r : Reservation) (monthStart monthEnd : ℤ) : ℤ :=
  let overlapStart := if r.startDate > monthStart then r.startDate else monthStart
  let overlapEnd := if r.endDate < monthEnd then r.endDate else monthEnd
  if overlapEnd > overlapStart then overlapEnd - overlapStart else 0

/-- Embedding of the revenue computation of the loop body of
`calculateMonthMetrics` (analytics.ts lines 798-813): inside the overlap
branch, prefer a truthy `nightlySubtotal`, else a truthy `totalPrice`,
else contribute nothing; prorate the chosen total-stay price per night. -/
def revenueInMonth (r : Reservation) (monthStart monthEnd : ℤ) : ℚ :=
  let overlapStart := if r.startDate > monthStart then r.startDate else monthStart
  let overlapEnd := if r.endDate < monthEnd then r.endDate else monthEnd
  if overlapEnd > overlapStart then
    let nightsHere := overlapEnd - overlapStart
    if truthy r.nightlySubtotal then
      let totalNights := r.endDate - r.startDate
      let nightlyRate : ℚ :=
        if totalNights > 0 then (r.nightlySubtotal.getD 0) / (totalNights : ℚ) else 0
      nightlyRate * (nightsHere : ℚ)
    else if truthy r.totalPrice then
      let totalReservationNights := r.endDate - r.startDate
      if totalReservationNights > 0 then
        ((r.totalPrice.getD 0) / (totalReservationNights : ℚ)) * (nightsHere : ℚ)
      else 0
    else 0
  else 0

/-- The record returned by `calculateMonthMetrics`. -/
structure MonthMetrics where
  adr : Option ℚ
  occupancy : Option ℚ
  revpar : Option ℚ
  totalNights : ℤ
  totalRevenue : ℚ
  totalAvailableNights : ℤ
deriving Repr, DecidableEq

/-- Embedding of `calculateMonthMetrics` (analytics.ts lines 774-834).
The loop accumulating `totalNights` and `totalRevenue` is the sum of the
per-reservation contributions; `daysInMonth` is
`differenceInDays(monthEnd, monthStart) + 1` exactly as in the source. -/
def calculateMonthMetrics (reservations : List Reservation)
    (monthStart monthEnd : ℤ) (propertyCount : ℕ) : MonthMetrics :=
  let totalNights : ℤ :=
    (reservations.map (fun r => nightsInMonth r monthStart monthEnd)).sum
  let totalRevenue : ℚ :=
    (reservations.map (fun r => revenueInMonth r monthStart monthEnd)).sum
  let daysInMonth : ℤ := (monthEnd - monthStart) + 1
  let totalAvailableNights : ℤ := (propertyCount : ℤ) * daysInMonth
  let occupancy : Option ℚ :=
    if totalAvailableNights > 0 then
      some ((totalNights : ℚ) / (totalAvailableNights : ℚ) * 100)
    else none
  let adr : Option ℚ :=
    if totalNights > 0 then some (totalRevenue / (totalNights : ℚ)) else none
  let revpar : Option ℚ :=
    if totalAvailableNights > 0 then
      some (totalRevenue / (totalAvailableNights : ℚ))
    else none
  ⟨adr, occupancy, revpar, totalNights, totalRevenue, totalAvailableNights⟩

/-- Embedding of `calculatePercentageChange` (analytics.ts lines 766-771). -/
def calculatePercentageChange (current previous : Option ℚ) : Option ℚ :=
  match current, previous with
  | none, _ => none
  | _, none => none
  | some c, some p => if p = 0 then none else some ((c - p) / p * 100)

/-- The total-stay price the revenue branch of the loop effectively charges:
a truthy `nightlySubtotal` wins, else a truthy `totalPrice`, else `0`. -/
def effectivePrice (r : Reservation) : ℚ :=
  if truthy r.nightlySubtotal then r.nightlySubtotal.getD 0
  else if truthy r.totalPrice then r.totalPrice.getD 0
  else 0

/-- The per-night rate the revenue branch uses once an overlap exists. -/
def effectiveRate (r : Reservation) : ℚ :=
  if r.endDate - r.startDate > 0 then
    effectivePrice r / ((r.endDate - r.startDate : ℤ) : ℚ)
  else 0

/-- The authoritative total-stay price in the spec's words: `roomRevenue`
(i.e. `nightlySubtotal`) if present, else `grossPrice` (i.e. `totalPrice`),
else `0`.  Used only to compare the spec's claim with the source. -/
def specAuthoritativePrice (r : Reservation) : ℚ :=
  match r.nightlySubtotal with
  | some v => v
  | none => match r.totalPrice with
    | some v => v
    | none => 0

/-- Consecutive half-open periods cut out of a list of boundary dates:
`periodsOf [c0, c1, ..., cn]` is `[(c0, c1), (c1, c2), ..., (c(n-1), cn)]`. -/
def periodsOf : List ℤ → List (ℤ × ℤ)
  | [] => []
  | [_] => []
  | a :: b :: rest => (a, b) :: periodsOf (b :: rest)

/-- Total nights the allocator assigns to a reservation over a chain of
adjacent periods. -/
def nightsOverCuts (r : Reservation) (cuts : List ℤ) : ℤ :=
  ((periodsOf cuts).map (fun p => nightsInMonth r p.1 p.2)).sum

/-- Total revenue the allocator assigns to a reservation over a chain of
adjacent periods. -/
def revenueOverCuts (r : Reservation) (cuts : List ℤ) : ℚ :=
  ((periodsOf cuts).map (fun p => revenueInMonth r p.1 p.2)).sum

/-! ## General lemmas about the allocator -/

/-- The revenue the loop body adds for one reservation is always the
effective per-night rate times the nights it counts for the period. -/
theorem revenueInMonth_eq_rate_mul (r : Reservation) (ps pe : ℤ) :
    revenueInMonth r ps pe = effectiveRate r * (nightsInMonth r ps pe : ℚ) := by
  simp only [revenueInMonth, nightsInMonth, effectiveRate, effectivePrice]
  split_ifs <;> simp_all

/-- Allocated nights are never negative. -/
theorem nightsInMonth_nonneg (r : Reservation) (ps pe : ℤ) :
    0 ≤ nightsInMonth r ps pe := by
  simp only [nightsInMonth]
  split_ifs <;> omega

/-- An empty clamped overlap yields zero nights. -/
theorem nightsInMonth_eq_zero (r : Reservation) (ps pe : ℤ)
    (h : min r.endDate pe ≤ max r.startDate ps) : nightsInMonth r ps pe = 0 := by
  simp only [nightsInMonth]
  split_ifs <;> omega

/-- Splitting a period at an interior cut point splits the allocated nights
additively. -/
theorem nightsInMonth_add (r : Reservation) (p q t : ℤ) (h1 : p ≤ q) (h2 : q ≤ t) :
    nightsInMonth r p q + nightsInMonth r q t = nightsInMonth r p t := by
  simp only [nightsInMonth]
  split_ifs <;> omega

/-- The head of a `≤`-chain is below the last element of the chain. -/
theorem chain_le_getLastD (c : ℤ) (cs : List ℤ) (h : List.Chain (· ≤ ·) c cs) :
    c ≤ cs.getLastD c := by
  induction cs generalizing c with
  | nil => exact le_refl c
  | cons d rest ih =>
    rcases List.chain_cons.mp h with ⟨hcd, hrest⟩
    calc c ≤ d := hcd
      _ ≤ rest.getLastD d := ih d hrest
      _ = (d :: rest).getLastD c := (List.getLastD_cons c d rest).symm

/-- Total nights over a chain of adjacent periods telescope to the nights
of the single enclosing period. -/
theorem nightsOverCuts_chain (r : Reservation) (c : ℤ) (cs : List ℤ)
    (h : List.Chain (· ≤ ·) c cs) :
    nightsOverCuts r (c :: cs) = nightsInMonth r c (cs.getLastD c) := by
  induction cs generalizing c with
  | nil =>
    simp only [nightsOverCuts, periodsOf, List.map_nil, List.sum_nil, List.getLastD]
    exact (nightsInMonth_eq_zero r c c (by omega)).symm
  | cons d rest ih =>
    rcases List.chain_cons.mp h with ⟨hcd, hrest⟩
    have hsum : nightsOverCuts r (c :: d :: rest) =
        nightsInMonth r c d + nightsOverCuts r (d :: rest) := by
      simp [nightsOverCuts, periodsOf]
    rw [hsum, ih d hrest]
    have hlast : d ≤ rest.getLastD d := chain_le_getLastD d rest hrest
    rw [nightsInMonth_add r c d (rest.getLastD d) hcd hlast, List.getLastD_cons]

/-- Total revenue over any list of periods is the effective rate times the
total nights over those periods. -/
theorem revenueOverCuts_eq_rate_mul (r : Reservation) (cuts : List ℤ) :
    revenueOverCuts r cuts = effectiveRate r * ((nightsOverCuts r cuts : ℤ) : ℚ) := by
  simp only [revenueOverCuts, nightsOverCuts]
  induction periodsOf cuts with
  | nil => simp
  | cons p t ih =>
    simp only [List.map_cons, List.sum_cons]
    rw [ih, revenueInMonth_eq_rate_mul]
    push_cast
    ring

/-! ## General lemmas about the aggregator -/

/-- The `adr` field of the aggregator's output, by definition. -/
theorem metrics_adr_eq (rs : List Reservation) (ps pe : ℤ) (n : ℕ) :
    (calculateMonthMetrics rs ps pe n).adr =
      if 0 < (calculateMonthMetrics rs ps pe n).totalNights then
        some ((calculateMonthMetrics rs ps pe n).totalRevenue /
          ((calculateMonthMetrics rs ps pe n).totalNights : ℚ))
      else none := rfl

/-- The `occupancy` field of the aggregator's output, by definition. -/
theorem metrics_occupancy_eq (rs : List Reservation) (ps pe : ℤ) (n : ℕ) :
    (calculateMonthMetrics rs ps pe n).occupancy =
      if 0 < (calculateMonthMetrics rs ps pe n).totalAvailableNights then
        some (((calculateMonthMetrics rs ps pe n).totalNights : ℚ) /
          ((calculateMonthMetrics rs ps pe n).totalAvailableNights : ℚ) * 100)
      else none := rfl

/-- The `revpar` field of the aggregator's output, by definition. -/
theorem metrics_revpar_eq (rs : List Reservation) (ps pe : ℤ) (n : ℕ) :
    (calculateMonthMetrics rs ps pe n).revpar =
      if 0 < (calculateMonthMetrics rs ps pe n).totalAvailableNights then
        some ((calculateMonthMetrics rs ps pe n).totalRevenue /
          ((calculateMonthMetrics rs ps pe n).totalAvailableNights : ℚ))
      else none := rfl

/-- The `totalAvailableNights` field of the aggregator's output, by
definition: `propertyCount * (differenceInDays(monthEnd, monthStart) + 1)`. -/
theorem metrics_availableNights_eq (rs : List Reservation) (ps pe : ℤ) (n : ℕ) :
    (calculateMonthMetrics rs ps pe n).totalAvailableNights =
      (n : ℤ) * ((pe - ps) + 1) := rfl

/-- The `totalNights` field of the aggregator's output, by definition. -/
theorem metrics_totalNights_eq (rs : List Reservation) (ps pe : ℤ) (n : ℕ) :
    (calculateMonthMetrics rs ps pe n).totalNights =
      (rs.map fun r => nightsInMonth r ps pe).sum := rfl

/-- Aggregated nights are never negative. -/
theorem metrics_totalNights_nonneg (rs : List Reservation) (ps pe : ℤ) (n : ℕ) :
    0 ≤ (calculateMonthMetrics rs ps pe n).totalNights := by
  rw [metrics_totalNights_eq]
  refine List.sum_nonneg fun x hx => ?_
  obtain ⟨r, _, rfl⟩ := List.mem_map.mp hx
  exact nightsInMonth_nonneg r ps pe

/-- Available nights are never negative for a well-formed period. -/
theorem metrics_availableNights_nonneg (rs : List Reservation) (ps pe : ℤ) (n : ℕ)
    (h : ps ≤ pe) : 0 ≤ (calculateMonthMetrics rs ps pe n).totalAvailableNights := by
  rw [metrics_availableNights_eq]
  exact mul_nonneg (Int.natCast_nonneg n) (by omega)

/-! ## Claim theorems -/

/-- C2 counterexample: for the reservation May 20 to Jul 10 (day numbers with
May 1 = 0: start 19, end 70) with roomRevenue 2000, the code allocates 12
nights to May (not 11), the total stay is 51 nights (not 50), and the June
revenue allocation is not 1200. -/
theorem C2_counterexample :
    nightsInMonth ⟨19, 70, none, some 2000⟩ 0 31 = 12 ∧ (12 : ℤ) ≠ 11 ∧
    (⟨19, 70, none, some 2000⟩ : Reservation).endDate -
      (⟨19, 70, none, some 2000⟩ : Reservation).startDate = 51 ∧ (51 : ℤ) ≠ 50 ∧
    revenueInMonth ⟨19, 70, none, some 2000⟩ 31 61 ≠ 1200 := by
  norm_num [nightsInMonth, revenueInMonth, truthy]

/-- C2 (amended): the reservation May 20 to Jul 10 with roomRevenue 2000
spans May (12 nights), June (30 nights), July (9 nights) out of 51 total
nights; the June allocation is 2000 × 30/51, not the full 2000. -/
theorem C2_multi_month_proration :
    nightsInMonth ⟨19, 70, none, some 2000⟩ 0 31 = 12 ∧
    nightsInMonth ⟨19, 70, none, some 2000⟩ 31 61 = 30 ∧
    nightsInMonth ⟨19, 70, none, some 2000⟩ 61 92 = 9 ∧
    revenueInMonth ⟨19, 70, none, some 2000⟩ 31 61 = 2000 * (30 / 51) ∧
    revenueInMonth ⟨19, 70, none, some 2000⟩ 31 61 ≠ 2000 := by
  norm_num [nightsInMonth, revenueInMonth, truthy]

/-- C3 counterexample: a reservation over days [0, 10) with
`nightlySubtotal = 0` (present) and `totalPrice = 130` is allocated 130 —
the gross price does influence the result even though roomRevenue is
present, contradicting strict field precedence. -/
theorem C3_counterexample :
    revenueInMonth ⟨0, 10, some 130, some 0⟩ 0 10 = 130 ∧
    revenueInMonth ⟨0, 10, none, some 0⟩ 0 10 = 0 ∧
    revenueInMonth ⟨0, 10, some 130, some 0⟩ 0 10 ≠
      revenueInMonth ⟨0, 10, none, some 0⟩ 0 10 := by
  norm_num [revenueInMonth, truthy]

/-- C3 (amended): whenever `nightlySubtotal` is present and nonzero, the
allocated revenue is fully determined by it (prorated per night), so
`totalPrice` is never consulted; and when both price fields are absent the
allocated revenue is 0. -/
theorem C3_revenue_precedence (r : Reservation) (ps pe : ℤ) :
    (∀ x : ℚ, r.nightlySubtotal = some x → x ≠ 0 →
      revenueInMonth r ps pe =
        (if r.endDate - r.startDate > 0 then
            x / ((r.endDate - r.startDate : ℤ) : ℚ)
          else 0) * (nightsInMonth r ps pe : ℚ)) ∧
    (r.nightlySubtotal = none → r.totalPrice = none → revenueInMonth r ps pe = 0) := by
  constructor
  · rintro x hx hx0
    have hrate : effectiveRate r =
        if r.endDate - r.startDate > 0 then
          x / ((r.endDate - r.startDate : ℤ) : ℚ)
        else 0 := by
      simp [effectiveRate, effectivePrice, truthy, hx, hx0]
    rw [revenueInMonth_eq_rate_mul, hrate]
  · intro h1 h2
    have hp : effectivePrice r = 0 := by simp [effectivePrice, truthy, h1, h2]
    rw [revenueInMonth_eq_rate_mul]
    simp [effectiveRate, hp]

/-- C3 witness: a reservation over days [0, 10) with roomRevenue 100 and
grossPrice 130 is allocated exactly 100 for the full period. -/
theorem C3_revenue_precedence_witness :
    revenueInMonth ⟨0, 10, some 130, some 100⟩ 0 10 = 100 := by
  have h := (C3_revenue_precedence ⟨0, 10, some 130, some 100⟩ 0 10).1 100 rfl (by norm_num)
  rw [h]
  norm_num [nightsInMonth]

/-- C4 (confirmed): the reservation Jan 15 to Feb 15 (day numbers with
Jan 1 = 0: start 14, end 45; 31 total nights, roomRevenue 3100) allocated
to the January period [Jan 1, Feb 1) = [0, 31) yields 17 nights and
revenue 1700. -/
theorem C4_full_containment :
    nightsInMonth ⟨14, 45, none, some 3100⟩ 0 31 = 17 ∧
    revenueInMonth ⟨14, 45, none, some 3100⟩ 0 31 = 1700 := by
  norm_num [nightsInMonth, revenueInMonth, truthy]

/-- C5 (confirmed): boundary half-open semantics.  For a well-formed period,
a reservation whose `endDate` equals `periodStart` or whose `startDate`
equals `periodEnd` is allocated zero nights and zero revenue, and more
generally any empty clamped overlap yields the allocation (0, 0). -/
theorem C5_boundary_half_open (r : Reservation) (ps pe : ℤ) (hper : ps ≤ pe) :
    (r.endDate = ps → nightsInMonth r ps pe = 0 ∧ revenueInMonth r ps pe = 0) ∧
    (r.startDate = pe → nightsInMonth r ps pe = 0 ∧ revenueInMonth r ps pe = 0) ∧
    (min r.endDate pe ≤ max r.startDate ps →
      nightsInMonth r ps pe = 0 ∧ revenueInMonth r ps pe = 0) := by
  have key : ∀ _ : min r.endDate pe ≤ max r.startDate ps,
      nightsInMonth r ps pe = 0 ∧ revenueInMonth r ps pe = 0 := by
    intro h
    refine ⟨nightsInMonth_eq_zero r ps pe h, ?_⟩
    rw [revenueInMonth_eq_rate_mul, nightsInMonth_eq_zero r ps pe h]
    simp
  exact ⟨fun h1 => key (by omega), fun h2 => key (by omega), key⟩

/-- C5 witness: a reservation over days [0, 5) relative to the period
[5, 10) (its end touching the period start) is allocated (0, 0). -/
theorem C5_boundary_half_open_witness :
    nightsInMonth ⟨0, 5, none, some 100⟩ 5 10 = 0 ∧
    revenueInMonth ⟨0, 5, none, some 100⟩ 5 10 = 0 :=
  (C5_boundary_half_open ⟨0, 5, none, some 100⟩ 5 10 (by norm_num)).1 rfl

/-- C6 counterexample: for the empty reservation list, the period [0, 31)
(31 calendar days) and inventory size 1, the aggregator reports 32
available nights, not 1 × 31. -/
theorem C6_counterexample :
    (calculateMonthMetrics [] 0 31 1).totalAvailableNights = 32 ∧
    (calculateMonthMetrics [] 0 31 1).totalAvailableNights ≠ 1 * (31 - 0) := by
  refine ⟨rfl, ?_⟩
  rw [metrics_availableNights_eq]
  norm_num

/-- C6 (amended): the aggregator computes availableNights as
inventorySize × (daysBetween(periodStart, periodEnd) + 1): the source adds
one to `differenceInDays(monthEnd, monthStart)` because its callers pass an
inclusive last-day `monthEnd`, so under the spec's half-open reading of the
arguments the count is one day high. -/
theorem C6_available_nights (rs : List Reservation) (ps pe : ℤ) (count : ℕ) :
    (calculateMonthMetrics rs ps pe count).totalAvailableNights =
      (count : ℤ) * ((pe - ps) + 1) := rfl

/-- C1 counterexample: a reservation over days [0, 10) with
`nightlySubtotal = 0` (present) and `totalPrice = 130`, split across the
adjacent periods [0, 5) and [5, 10) covering its full range, conserves
nights (10) but sums revenue 130, not the spec's authoritative price
(roomRevenue if present, else grossPrice), which is 0 here. -/
theorem C1_counterexample :
    nightsOverCuts ⟨0, 10, some 130, some 0⟩ [0, 5, 10] = 10 ∧
    revenueOverCuts ⟨0, 10, some 130, some 0⟩ [0, 5, 10] = 130 ∧
    specAuthoritativePrice ⟨0, 10, some 130, some 0⟩ = 0 ∧
    revenueOverCuts ⟨0, 10, some 130, some 0⟩ [0, 5, 10] ≠
      specAuthoritativePrice ⟨0, 10, some 130, some 0⟩ := by
  norm_num [nightsOverCuts, revenueOverCuts, periodsOf, nightsInMonth,
    revenueInMonth, truthy, specAuthoritativePrice]

/-- C1 (amended): conservation law.  For a reservation with a valid
half-open range split across any chain of adjacent non-overlapping periods
covering the full range, the allocated nights sum to the total stay nights
and the allocated revenue sums exactly to the effective total price, where
a price field that is present but zero counts as absent (the source tests
truthiness): roomRevenue if present and nonzero, else grossPrice if present
and nonzero, else 0. -/
theorem C1_conservation (r : Reservation) (c : ℤ) (cs : List ℤ)
    (hvalid : r.startDate < r.endDate)
    (hchain : List.Chain (· ≤ ·) c cs)
    (hlo : c ≤ r.startDate)
    (hhi : r.endDate ≤ cs.getLastD c) :
    nightsOverCuts r (c :: cs) = r.endDate - r.startDate ∧
    revenueOverCuts r (c :: cs) = effectivePrice r := by
  have hn : nightsOverCuts r (c :: cs) = r.endDate - r.startDate := by
    rw [nightsOverCuts_chain r c cs hchain]
    simp only [nightsInMonth]
    split_ifs <;> omega
  refine ⟨hn, ?_⟩
  rw [revenueOverCuts_eq_rate_mul, hn]
  simp only [effectiveRate, if_pos (by omega : r.endDate - r.startDate > 0)]
  rw [div_mul_cancel₀]
  exact Int.cast_ne_zero.mpr (by omega)

/-- C1 witness: a 31-night reservation with roomRevenue 3100 split at day 15
across [0, 15) and [15, 31) sums to 31 nights and revenue 3100. -/
theorem C1_conservation_witness :
    nightsOverCuts ⟨0, 31, none, some 3100⟩ [0, 15, 31] = 31 ∧
    revenueOverCuts ⟨0, 31, none, some 3100⟩ [0, 15, 31] = 3100 := by
  have h := C1_conservation ⟨0, 31, none, some 3100⟩ 0 [15, 31] (by decide)
    (List.Chain.cons (by decide) (List.Chain.cons (by decide) List.Chain.nil))
    (by decide) (by decide)
  refine ⟨by rw [h.1]; decide, ?_⟩
  rw [h.2]
  norm_num [effectivePrice, truthy]

/-- C7 (confirmed): null-safe degenerate denominators.  The aggregator is a
total function; on the empty list with inventory 0 it returns null
occupancy, ADR and RevPAR, and in general ADR is null exactly when total
nights is 0 while occupancy and RevPAR are null exactly when available
nights is 0 (for a well-formed period). -/
theorem C7_null_safety (rs : List Reservation) (ps pe : ℤ) (count : ℕ)
    (hper : ps ≤ pe) :
    ((calculateMonthMetrics [] ps pe 0).occupancy = none ∧
     (calculateMonthMetrics [] ps pe 0).adr = none ∧
     (calculateMonthMetrics [] ps pe 0).revpar = none) ∧
    ((calculateMonthMetrics rs ps pe count).adr = none ↔
     (calculateMonthMetrics rs ps pe count).totalNights = 0) ∧
    ((calculateMonthMetrics rs ps pe count).occupancy = none ↔
     (calculateMonthMetrics rs ps pe count).totalAvailableNights = 0) ∧
    ((calculateMonthMetrics rs ps pe count).revpar = none ↔
     (calculateMonthMetrics rs ps pe count).totalAvailableNights = 0) := by
  have hA0 : (calculateMonthMetrics [] ps pe 0).totalAvailableNights = 0 := by
    rw [metrics_availableNights_eq]
    ring
  have hN0 : (calculateMonthMetrics [] ps pe 0).totalNights = 0 := rfl
  have hN := metrics_totalNights_nonneg rs ps pe count
  have hA := metrics_availableNights_nonneg rs ps pe count hper
  refine ⟨⟨?_, ?_, ?_⟩, ?_, ?_, ?_⟩
  · rw [metrics_occupancy_eq, hA0]
    norm_num
  · rw [metrics_adr_eq, hN0]
    norm_num
  · rw [metrics_revpar_eq, hA0]
    norm_num
  · rw [metrics_adr_eq]
    split_ifs with h
    · simp [h.ne']
    · simp [le_antisymm (not_lt.mp h) hN]
  · rw [metrics_occupancy_eq]
    split_ifs with h
    · simp [h.ne']
    · simp [le_antisymm (not_lt.mp h) hA]
  · rw [metrics_revpar_eq]
    split_ifs with h
    · simp [h.ne']
    · simp [le_antisymm (not_lt.mp h) hA]

/-- C7 witness: the aggregator on the empty list over the 31-day period
[0, 31) with inventory 0 reports null occupancy, ADR and RevPAR. -/
theorem C7_null_safety_witness :
    (calculateMonthMetrics [] 0 31 0).occupancy = none ∧
    (calculateMonthMetrics [] 0 31 0).adr = none ∧
    (calculateMonthMetrics [] 0 31 0).revpar = none :=
  (C7_null_safety [] 0 31 0 (by norm_num)).1

/-- C8 (confirmed): percentage variance is `(current - baseline) / baseline
× 100`, and it is null exactly when the current value is null, the baseline
is null, or the baseline is exactly 0; in particular a current value of 50
against a baseline of 0 gives null. -/
theorem C8_percentage_variance (c b : Option ℚ) :
    (calculatePercentageChange c b = none ↔ c = none ∨ b = none ∨ b = some 0) ∧
    (∀ x y : ℚ, c = some x → b = some y → y ≠ 0 →
      calculatePercentageChange c b = some ((x - y) / y * 100)) ∧
    calculatePercentageChange (some 50) (some 0) = none := by
  refine ⟨?_, ?_, by norm_num [calculatePercentageChange]⟩
  · cases c <;> cases b <;> simp [calculatePercentageChange]
  · rintro x y rfl rfl hy
    simp [calculatePercentageChange, hy]

/-- C8 witness: percentage variance of current 50 against baseline 25. -/
theorem C8_percentage_variance_witness :
    calculatePercentageChange (some 50) (some 25) = some ((50 - 25) / 25 * 100) :=
  (C8_percentage_variance (some 50) (some 25)).2.1 50 25 rfl rfl (by norm_num)

/-- C9 (confirmed): order independence.  Aggregating any permutation of the
reservation list yields the same MonthMetrics record. -/
theorem C9_order_independence (l1 l2 : List Reservation) (ps pe : ℤ)
    (count : ℕ) (h : l1.Perm l2) :
    calculateMonthMetrics l1 ps pe count = calculateMonthMetrics l2 ps pe count := by
  have hn : (l1.map fun r => nightsInMonth r ps pe).sum =
      (l2.map fun r => nightsInMonth r ps pe).sum :=
    (h.map fun r => nightsInMonth r ps pe).sum_eq
  have hr : (l1.map fun r => revenueInMonth r ps pe).sum =
      (l2.map fun r => revenueInMonth r ps pe).sum :=
    (h.map fun r => revenueInMonth r ps pe).sum_eq
  simp only [calculateMonthMetrics, hn, hr]

/-- C9 witness: swapping two concrete reservations leaves the aggregate
unchanged. -/
theorem C9_order_independence_witness :
    calculateMonthMetrics [⟨0, 5, none, some 100⟩, ⟨2, 8, some 300, none⟩] 0 31 2 =
      calculateMonthMetrics [⟨2, 8, some 300, none⟩, ⟨0, 5, none, some 100⟩] 0 31 2 :=
  C9_order_independence _ _ 0 31 2
    (List.Perm.swap (⟨2, 8, some 300, none⟩ : Reservation) ⟨0, 5, none, some 100⟩ [])

/-- C10 (confirmed): a `nightlySubtotal` that is present but exactly 0 is
treated as absent by the truthiness test, so the in-period revenue is
allocated from a present, nonzero `totalPrice` instead — and is nonzero
whenever the stay and the overlap are nonempty, rather than the 0 that
strict field precedence would give. -/
theorem C10_zero_room_revenue (r : Reservation) (ps pe : ℤ) (g : ℚ)
    (h1 : r.nightlySubtotal = some 0) (h2 : r.totalPrice = some g) (h3 : g ≠ 0) :
    revenueInMonth r ps pe =
      (if r.endDate - r.startDate > 0 then
          g / ((r.endDate - r.startDate : ℤ) : ℚ)
        else 0) * (nightsInMonth r ps pe : ℚ) ∧
    (r.endDate - r.startDate > 0 → 0 < nightsInMonth r ps pe →
      revenueInMonth r ps pe ≠ 0) := by
  have hrate : effectiveRate r =
      if r.endDate - r.startDate > 0 then
        g / ((r.endDate - r.startDate : ℤ) : ℚ)
      else 0 := by
    simp [effectiveRate, effectivePrice, truthy, h1, h2, h3]
  constructor
  · rw [revenueInMonth_eq_rate_mul, hrate]
  · intro hT hNpos
    rw [revenueInMonth_eq_rate_mul, hrate, if_pos hT]
    exact mul_ne_zero (div_ne_zero h3 (Int.cast_ne_zero.mpr (by omega)))
      (Int.cast_ne_zero.mpr (by omega))

/-- C10 witness: the reservation over days [0, 10) with roomRevenue 0 and
grossPrice 130 receives nonzero revenue for the period [0, 10). -/
theorem C10_zero_room_revenue_witness :
    revenueInMonth ⟨0, 10, some 130, some 0⟩ 0 10 ≠ 0 :=
  (C10_zero_room_revenue ⟨0, 10, some 130, some 0⟩ 0 10 130 rfl rfl
    (by norm_num)).2 (by decide) (by decide)
